import Mathlib

/-
Shallow embedding of the HealthCheck-MCP alert-aggregation engine
(src/health_check/src/system/alerts.js, thermal.js, and the network module).

Machine numbers (JS doubles) are modelled as rationals; the "N/A" sentinel
that the source mixes with numbers is modelled as Option; timestamps
(Date.now / ISO strings produced at the same instant) are modelled as a
single natural-number clock value passed explicitly.  The module-level
mutable caches become explicit state values threaded through the
entrypoints.  Shell sub-commands are external collaborators: each function
that runs one receives the command outcome (stdout or a thrown error) as
an argument of type Except Unit _.
-/

namespace HealthCheck

/-- Whether the first character list occurs at the very start of the second. -/
def startsWithChars : List Char → List Char → Bool
  | [], _ => true
  | _ :: _, [] => false
  | p :: ps, c :: cs => p == c && startsWithChars ps cs

/-- Whether the first character list occurs contiguously anywhere in the second. -/
def occursWithin (pat : List Char) : List Char → Bool
  | [] => startsWithChars pat []
  | c :: cs => startsWithChars pat (c :: cs) || occursWithin pat cs

/-- JS String.prototype.includes as used by alerts.js
(critical.some(a => a.includes("Defender"))): true when pat occurs
contiguously inside s. -/
def jsIncludes (s : String) (pat : String) : Bool :=
  occursWithin pat.toList s.toList

deriving instance DecidableEq for Except

/-- Decimal value of a list of digit characters. -/
def digitsVal (l : List Char) : ℕ :=
  l.foldl (fun acc c => acc * 10 + (c.toNat - 48)) 0

/-- Models JS parseInt on an already-trimmed decimal string: optional sign,
then a maximal run of leading digits; none models the NaN result when no
digit is found.  (The source only feeds it PowerShell count output.) -/
def jsParseInt (s : String) : Option ℤ :=
  let l := s.toList
  let signAndRest : ℤ × List Char :=
    match l with
    | c :: cs => if c = '-' then (-1, cs) else if c = '+' then (1, cs) else (1, l)
    | [] => (1, [])
  let ds := signAndRest.2.takeWhile Char.isDigit
  if ds.isEmpty then none else some (signAndRest.1 * (digitsVal ds : ℤ))

/-- Strip leading and trailing whitespace from a character list. -/
def trimChars (l : List Char) : List Char :=
  (((l.dropWhile Char.isWhitespace).reverse).dropWhile Char.isWhitespace).reverse

/-- JS String.prototype.trim, as applied to subprocess stdout. -/
def jsTrim (s : String) : String := ⟨trimChars s.toList⟩

/-- JS numeric comparison `x < k` where x may be the "N/A" sentinel (or NaN):
any comparison against a non-number yields false. -/
def jsLt (x : Option ℚ) (k : ℚ) : Bool :=
  match x with
  | some q => decide (q < k)
  | none => false

/-- JS string coercion of a value that is either a number or "N/A". -/
def jsShow (x : Option ℚ) : String :=
  match x with
  | some q => toString q
  | none => "N/A"

/-- Result shape of getMemoryQuick in alerts.js. -/
structure MemUsage where
  totalGB : ℚ
  usedGB : ℚ
  freeGB : ℚ
  usagePercent : ℚ
deriving DecidableEq, Repr

/-- Result shape of getDiskQuickCheck in alerts.js; percentFree is a number
or the "N/A" string in the source. -/
structure DiskUsage where
  percentFree : Option ℚ
  warning : Bool
  critical : Bool
deriving DecidableEq, Repr

/-- getDiskQuickCheck: the PowerShell call either throws (Except.error) or
yields stdout whose parseFloat result is abstracted as Option ℚ
(none models NaN output).  On NaN, percentFree becomes "N/A" while the
warning/critical flags compare the raw NaN and come out false; on a thrown
error the catch block returns the neutral record. -/
def getDiskQuickCheck (execResult : Except Unit (Option ℚ)) : DiskUsage :=
  match execResult with
  | Except.ok parsed =>
    { percentFree := parsed
      warning := jsLt parsed 20
      critical := jsLt parsed 5 }
  | Except.error _ =>
    { percentFree := none
      warning := false
      critical := false }

/-- Result shape of getSecurityQuickCheck in alerts.js. -/
structure SecurityStatus where
  defenderDisabled : Bool
  firewallDisabled : Bool
deriving DecidableEq, Repr

/-- Outcome of the security quick-check: either the whole function body
throws synchronously (caught by its outer catch), or the two PowerShell
sub-commands each settle with stdout or a rejection (each rejection is
mapped to stdout "" by the inner .catch handlers in the source). -/
inductive SecurityOutcome where
  | throws : SecurityOutcome
  | results (defender : Except Unit String) (firewall : Except Unit String) : SecurityOutcome
deriving DecidableEq, Repr

/-- getSecurityQuickCheck from alerts.js.  defenderDisabled compares trimmed
stdout to "True"; the firewall profile count is parseInt(trimmed || "0"),
and firewallDisabled is that count strictly equal to 0 (NaN compares
false). A synchronous throw hits the outer catch and returns both false. -/
def getSecurityQuickCheck : SecurityOutcome → SecurityStatus
  | SecurityOutcome.throws => { defenderDisabled := false, firewallDisabled := false }
  | SecurityOutcome.results defender firewall =>
    let defenderStdout := match defender with | Except.ok s => s | Except.error _ => ""
    let firewallStdout := match firewall with | Except.ok s => s | Except.error _ => ""
    let fwTrim := jsTrim firewallStdout
    let firewallEnabledProfiles := jsParseInt (if fwTrim = "" then "0" else fwTrim)
    { defenderDisabled := jsTrim defenderStdout == "True"
      firewallDisabled := firewallEnabledProfiles == some 0 }

/-- The alerts object assembled by getHealthAlerts before derived fields are
added: an ISO timestamp and the three severity lists. -/
structure Alerts where
  timestamp : ℕ
  critical : List String
  warning : List String
  info : List String
deriving DecidableEq, Repr

/-- Math.round(x * 100) / 100 from calculateHealthScore. -/
def round2 (q : ℚ) : ℚ := ((round (q * 100) : ℤ) : ℚ) / 100

/-- Result shape of calculateHealthScore. -/
structure HealthScore where
  score : ℚ
  status : String
deriving DecidableEq, Repr

/-- calculateHealthScore from alerts.js. -/
def calculateHealthScore (alerts : Alerts) : HealthScore :=
  let criticalPenalty : ℚ := (alerts.critical.length : ℚ) * 15
  let warningPenalty : ℚ := (alerts.warning.length : ℚ) * 5
  let score : ℚ := max 0 (100 - criticalPenalty - warningPenalty)
  { score := round2 score
    status :=
      if score ≥ 80 then "Good"
      else if score ≥ 60 then "Fair"
      else if score ≥ 40 then "Poor"
      else "Critical" }

/-- buildNextSteps from alerts.js: three fixed rules push in order, then the
array is sliced to at most two entries.  There is no deduplication step. -/
def buildNextSteps (alerts : Alerts) (cpuUsage : ℚ) (memUsage : MemUsage)
    (diskUsage : DiskUsage) : List String :=
  let s1 : List String :=
    if cpuUsage > 80 ∨ memUsage.usagePercent > 85 then ["get_performance_stats"] else []
  let s2 : List String :=
    if jsLt diskUsage.percentFree 20 then ["get_system_health"] else []
  let s3 : List String :=
    if alerts.critical.any (fun a => jsIncludes a "Defender") then ["get_system_health"] else []
  (s1 ++ s2 ++ s3).take 2

/-- generateSummary from alerts.js.  The JS || fallbacks on the joined
next-step list (falsy exactly when the joined string is empty) are modelled
by an explicit emptiness test. -/
def generateSummary (alerts : Alerts) (nextSteps : List String) : String :=
  let healthScore := calculateHealthScore alerts
  if alerts.critical.length > 0 then
    let criticalIssues := String.intercalate "; " (alerts.critical.take 2)
    let joined := String.intercalate ", " nextSteps
    let run := if joined = "" then "get_performance_stats" else joined
    s!"🔴 CRITICAL: {criticalIssues}. Run: {run}"
  else if alerts.warning.length > 0 then
    let warningIssues := String.intercalate "; " (alerts.warning.take 2)
    let joined := String.intercalate ", " nextSteps
    let run := if joined = "" then "investigate further" else joined
    s!"🟡 WARNING: {warningIssues}. Run: {run}"
  else if alerts.info.length > 0 then
    let first := alerts.info.headD ""
    let msg := if first = "" then "No immediate action needed." else first
    s!"ℹ️ INFO: System health good overall. {msg}"
  else
    let score := healthScore.score
    s!"✅ System healthy (score: {score}/100)"

/-- alertCount record built by getHealthAlerts. -/
structure AlertCount where
  critical : ℕ
  warning : ℕ
  info : ℕ
  total : ℕ
deriving DecidableEq, Repr

/-- cacheInfo record attached to a fresh report. -/
structure CacheInfo where
  cachedAt : ℕ
  staleAfter : ℕ
deriving DecidableEq, Repr

/-- The consolidated result object of getHealthAlerts. -/
structure Report where
  timestamp : ℕ
  critical : List String
  warning : List String
  info : List String
  alertCount : AlertCount
  systemHealthScore : HealthScore
  nextStepsToCheck : List String
  actionableSummary : String
  cacheInfo : CacheInfo
deriving DecidableEq, Repr

/-- CACHE_TTL of alerts.js (milliseconds). -/
def CACHE_TTL : ℕ := 3000

/-- The collector outcomes one invocation of getHealthAlerts observes:
the two cheap in-process reads and the two subprocess-backed quick checks. -/
structure Readings where
  cpuUsage : ℚ
  memUsage : MemUsage
  diskExec : Except Unit (Option ℚ)
  securityExec : SecurityOutcome
deriving DecidableEq, Repr

/-- The cache-miss body of getHealthAlerts: classify the readings into the
severity lists (each if/else-if chain contributes to the lists in source
order), then assemble counts, score, recommendations, summary and cache
metadata into the result object. -/
def computeReport (now : ℕ) (r : Readings) : Report :=
  let cpuUsage := r.cpuUsage
  let memPct := r.memUsage.usagePercent
  let diskUsage := getDiskQuickCheck r.diskExec
  let securityStatus := getSecurityQuickCheck r.securityExec
  let diskPct := jsShow diskUsage.percentFree
  let critical : List String :=
    (if cpuUsage > 90 then [s!"⚠️ CPU critically high: {cpuUsage}%"] else []) ++
    (if memPct > 90 then [s!"⚠️ Memory critically high: {memPct}%"] else []) ++
    (if jsLt diskUsage.percentFree 5 then [s!"⚠️ Disk space critical: {diskPct}% free"] else []) ++
    (if securityStatus.defenderDisabled then ["⚠️ Windows Defender is disabled"] else []) ++
    (if securityStatus.firewallDisabled then ["⚠️ Windows Firewall is disabled"] else [])
  let warning : List String :=
    (if ¬ (cpuUsage > 90) ∧ cpuUsage > 80 then [s!"CPU elevated: {cpuUsage}%"] else []) ++
    (if ¬ (memPct > 90) ∧ memPct > 85 then [s!"Memory elevated: {memPct}%"] else []) ++
    (if !(jsLt diskUsage.percentFree 5) && jsLt diskUsage.percentFree 20 then
      [s!"Low disk space: {diskPct}% free"] else [])
  let alerts : Alerts := { timestamp := now, critical := critical, warning := warning, info := [] }
  let nextStepsToCheck := buildNextSteps alerts cpuUsage r.memUsage diskUsage
  let actionableSummary := generateSummary alerts nextStepsToCheck
  { timestamp := now
    critical := critical
    warning := warning
    info := []
    alertCount :=
      { critical := critical.length
        warning := warning.length
        info := ([] : List String).length
        total := critical.length + warning.length + ([] : List String).length }
    systemHealthScore := calculateHealthScore alerts
    nextStepsToCheck := nextStepsToCheck
    actionableSummary := actionableSummary
    cacheInfo := { cachedAt := now, staleAfter := CACHE_TTL } }

/-- getHealthAlerts, the primary entrypoint, with the module-level
(alertCache, cacheTimestamp) pair made an explicit state argument:
a fresh-enough cache entry is returned as-is, otherwise a fresh report is
computed and stored with the current clock value. -/
def getHealthAlerts (now : ℕ) (r : Readings) (cache : Option (Report × ℕ)) :
    Report × Option (Report × ℕ) :=
  match cache with
  | some (cached, ts) =>
    if now - ts < CACHE_TTL then (cached, some (cached, ts))
    else
      let result := computeReport now r
      (result, some (result, now))
  | none =>
    let result := computeReport now r
    (result, some (result, now))

/-! ## thermal.js -/

/-- Value of checkThermalThrottling: the comparison of stdout to "True",
or the literal string "Unknown" returned by its catch block. -/
inductive ThrottleVal where
  | bool (b : Bool)
  | unknownStr
deriving DecidableEq, Repr

/-- Result shape of getFanSpeeds. -/
structure Fans where
  available : Bool
  note : String
deriving DecidableEq, Repr

/-- The collector outcomes one invocation of getThermalStatus observes.
cpuTemp/gpuTemp are a number or the "N/A" sentinel (the sub-collectors
return "N/A" on failure or missing sensors). -/
structure ThermalReadings where
  cpuTemp : Option ℚ
  gpuTemp : Option ℚ
  throttling : ThrottleVal
  fans : Fans
deriving DecidableEq, Repr

/-- One temperature entry of the thermal report. -/
structure TempInfo where
  temperatureCelsius : Option ℚ
  unit : String
deriving DecidableEq, Repr

/-- The result object of getThermalStatus. -/
structure ThermalReport where
  timestamp : ℕ
  severity : String
  cpu : TempInfo
  gpu : TempInfo
  thermalThrottling : ThrottleVal
  fans : Fans
  actionableSummary : String
  recommendations : List String
  nextStepsToCheck : List String
  cacheInfo : CacheInfo
deriving DecidableEq, Repr

/-- CACHE_TTL of thermal.js (milliseconds). -/
def THERMAL_CACHE_TTL : ℕ := 10000

/-- The cache-miss body of getThermalStatus: the if/else-if severity chain
(critical on cpu > 95 or throttling, warning on cpu > 85 or gpu > 85,
info otherwise, with the unavailable-data message when no cpu reading
exists), the summary string, and the result object. -/
def computeThermalReport (now : ℕ) (r : ThermalReadings) : ThermalReport :=
  let throttlingTrue := r.throttling == ThrottleVal.bool true
  let throttleCritical : String × List String × List String :=
    ("critical",
     ["Thermal throttling detected - performance is being reduced to prevent overheating",
      "Close resource-intensive applications and improve cooling"],
     ["get_performance_stats"])
  let unavailableInfo : String × List String × List String :=
    ("info",
     ["Temperature monitoring unavailable - requires WMI access or hardware sensors",
      "Run PowerShell as Administrator for temperature data"],
     [])
  let gpuWarnOr (fallback : String × List String × List String) :
      String × List String × List String :=
    match r.gpuTemp with
    | some g =>
      if g > 85 then
        ("warning",
         [s!"GPU temperature elevated at {g}°C",
          "Close GPU-intensive applications if temperature persists"],
         [])
      else fallback
    | none => fallback
  let triage : String × List String × List String :=
    match r.cpuTemp with
    | some t =>
      if t > 95 then
        ("critical",
         ["CPU temperature critical - shut down unnecessary applications immediately",
          "Ensure proper ventilation and check for dust buildup"],
         ["get_performance_stats"])
      else if throttlingTrue then throttleCritical
      else if t > 85 then
        ("warning",
         [s!"CPU temperature elevated at {t}°C - monitor closely",
          "Consider improving airflow or reducing workload"],
         [])
      else gpuWarnOr ("info", ["Thermal status normal"], [])
    | none =>
      if throttlingTrue then throttleCritical
      else gpuWarnOr unavailableInfo
  let actionableSummary :=
    match r.cpuTemp with
    | some t =>
      let gpuPart := match r.gpuTemp with | some g => s!", GPU: {g}°C" | none => ""
      let throttlePart := if throttlingTrue then " ⚠️ THROTTLING" else ""
      s!"CPU: {t}°C" ++ gpuPart ++ throttlePart
    | none => "Temperature data unavailable (requires elevated privileges or hardware sensors)"
  { timestamp := now
    severity := triage.1
    cpu := { temperatureCelsius := r.cpuTemp, unit := if r.cpuTemp.isSome then "°C" else "N/A" }
    gpu := { temperatureCelsius := r.gpuTemp, unit := if r.gpuTemp.isSome then "°C" else "N/A" }
    thermalThrottling := r.throttling
    fans := r.fans
    actionableSummary := actionableSummary
    recommendations := triage.2.1
    nextStepsToCheck := triage.2.2
    cacheInfo := { cachedAt := now, staleAfter := THERMAL_CACHE_TTL } }

/-- getThermalStatus with the module-level (thermalCache, cacheTimestamp)
pair made an explicit state argument. -/
def getThermalStatus (now : ℕ) (r : ThermalReadings)
    (cache : Option (ThermalReport × ℕ)) :
    ThermalReport × Option (ThermalReport × ℕ) :=
  match cache with
  | some (cached, ts) =>
    if now - ts < THERMAL_CACHE_TTL then (cached, some (cached, ts))
    else
      let result := computeThermalReport now r
      (result, some (result, now))
  | none =>
    let result := computeThermalReport now r
    (result, some (result, now))

/-! ## network module (getNetworkStatus and checkInternetConnectivity) -/

/-- One entry produced by getNetworkInterfaces ("N/A" encoded directly,
as in the source). -/
structure NetInterface where
  name : String
  ipv4 : String
  ipv6 : String
  mac : String
deriving DecidableEq, Repr

/-- Result shape of checkInternetConnectivity.  The source object carries
an optional error field, and a fromCache flag that is present (true) only
on the copy returned for a cache hit. -/
structure Connectivity where
  connected : Bool
  checkedServer : String
  error : Option String
  fromCache : Bool
deriving DecidableEq, Repr

/-- CONNECTIVITY_CACHE_TTL of the network module (milliseconds). -/
def CONNECTIVITY_CACHE_TTL : ℕ := 30000

/-- The cache-miss branch of checkInternetConnectivity: ping stdout compared
to "True", or the catch result; either way the value is stored in the
connectivity cache. -/
def connectivityFresh (now : ℕ) (execResult : Except Unit String) :
    Connectivity × Option (Connectivity × ℕ) :=
  match execResult with
  | Except.ok stdout =>
    let result : Connectivity :=
      { connected := jsTrim stdout == "True"
        checkedServer := "8.8.8.8 (Google DNS)"
        error := none
        fromCache := false }
    (result, some (result, now))
  | Except.error _ =>
    let result : Connectivity :=
      { connected := false
        checkedServer := "8.8.8.8 (Google DNS)"
        error := some "Unable to verify connectivity"
        fromCache := false }
    (result, some (result, now))

/-- checkInternetConnectivity with its module-level cache pair made an
explicit state argument.  A fresh-enough entry is returned spread with
fromCache set to true; the stored entry itself is not modified. -/
def checkInternetConnectivity (now : ℕ) (execResult : Except Unit String)
    (cache : Option (Connectivity × ℕ)) :
    Connectivity × Option (Connectivity × ℕ) :=
  match cache with
  | some (c, ts) =>
    if now - ts < CONNECTIVITY_CACHE_TTL then ({ c with fromCache := true }, some (c, ts))
    else connectivityFresh now execResult
  | none => connectivityFresh now execResult

/-- The fields of the getConnectedDevices result that getNetworkStatus
reads; each is a count or the "N/A" sentinel. -/
structure Devices where
  usbDevices : Option ℕ
  bluetoothDevices : Option ℕ
  totalConnectedDevices : Option ℕ
deriving DecidableEq, Repr

/-- JS string coercion of a count-or-"N/A" value. -/
def jsShowNat (x : Option ℕ) : String :=
  match x with
  | some n => toString n
  | none => "N/A"

/-- JS comparison `x > k` where x may be the "N/A" sentinel (false then). -/
def jsGtNat (x : Option ℕ) (k : ℕ) : Bool :=
  match x with
  | some n => decide (n > k)
  | none => false

/-- JS strict `x !== 1` where x may be the "N/A" sentinel (true then). -/
def jsNeOne (x : Option ℕ) : Bool :=
  match x with
  | some n => decide (n ≠ 1)
  | none => true

/-- The result object of getNetworkStatus.  The source attaches no
cacheInfo to this report and never pushes to nextStepsToCheck. -/
structure NetworkReport where
  timestamp : ℕ
  severity : String
  interfaces : List NetInterface
  internetConnectivity : Connectivity
  connectedDevices : Devices
  actionableSummary : String
  recommendations : List String
  nextStepsToCheck : List String
deriving DecidableEq, Repr

/-- getNetworkStatus: runs the (cached) connectivity check, derives
severity and recommendations, and builds a fresh report object on every
call — the report itself is not cached. -/
def getNetworkStatus (now : ℕ) (interfaces : List NetInterface)
    (connectivityExec : Except Unit String) (devices : Devices)
    (connCache : Option (Connectivity × ℕ)) :
    NetworkReport × Option (Connectivity × ℕ) :=
  let cres := checkInternetConnectivity now connectivityExec connCache
  let connectivity := cres.1
  let triage : String × List String :=
    if connectivity.connected = false then
      ("critical",
       ["No internet connectivity detected",
        "Check network cables, Wi-Fi connection, or router status",
        "Try: ipconfig /release && ipconfig /renew (run as Administrator)"])
    else if devices.usbDevices = none ∨ devices.bluetoothDevices = none then
      ("warning",
       ["Device enumeration incomplete - requires elevated permissions",
        "Run PowerShell as Administrator for full device visibility"])
    else
      let totalStr := jsShowNat devices.totalConnectedDevices
      let usbStr := jsShowNat devices.usbDevices
      let btStr := jsShowNat devices.bluetoothDevices
      ("info",
       ["Network status normal"] ++
       (if jsGtNat devices.usbDevices 0 || jsGtNat devices.bluetoothDevices 0 then
         [s!"Connected devices: {totalStr} ({usbStr} USB, {btStr} Bluetooth)"] else []))
  let activeInterfaces := interfaces.filter (fun i => i.ipv4 != "N/A" || i.ipv6 != "N/A")
  let n := activeInterfaces.length
  let ifPlural := if n ≠ 1 then "s" else ""
  let actionableSummary :=
    if connectivity.connected then
      let base := s!"✅ Internet connected ({n} active interface{ifPlural})"
      if devices.totalConnectedDevices ≠ none then
        let totalStr := jsShowNat devices.totalConnectedDevices
        let devPlural := if jsNeOne devices.totalConnectedDevices then "s" else ""
        base ++ s!". {totalStr} device{devPlural}"
      else base
    else
      s!"❌ No internet connectivity - {n} interface{ifPlural} detected but unreachable"
  ({ timestamp := now
     severity := triage.1
     interfaces := interfaces
     internetConnectivity := connectivity
     connectedDevices := devices
     actionableSummary := actionableSummary
     recommendations := triage.2
     nextStepsToCheck := [] }, cres.2)

/-! ## Helper lemmas -/

/-- Two-decimal rounding is the identity on integral rationals. -/
lemma round2_intCast (n : ℤ) : round2 ((n : ℚ)) = (n : ℚ) := by
  unfold round2
  rw [show ((n : ℚ) * 100) = (((n * 100 : ℤ) : ℚ)) by push_cast; ring, round_intCast]
  push_cast
  ring

/-- The health score is the clamped penalty formula (the two-decimal
rounding in the source is the identity here because the penalties are
whole numbers). -/
lemma calculateHealthScore_score (a : Alerts) :
    (calculateHealthScore a).score =
      max 0 (100 - (a.critical.length : ℚ) * 15 - (a.warning.length : ℚ) * 5) := by
  have key : max (0 : ℚ) (100 - (a.critical.length : ℚ) * 15 - (a.warning.length : ℚ) * 5)
      = (((max 0 (100 - (a.critical.length : ℤ) * 15 - (a.warning.length : ℤ) * 5)) : ℤ) : ℚ) := by
    push_cast
    ring_nf
  show round2 (max 0 (100 - (a.critical.length : ℚ) * 15 - (a.warning.length : ℚ) * 5)) = _
  rw [key, round2_intCast]

/-- The status label is banded from the score with the 80/60/40 cutoffs. -/
lemma calculateHealthScore_status (a : Alerts) :
    (calculateHealthScore a).status =
      (if (calculateHealthScore a).score ≥ 80 then "Good"
       else if (calculateHealthScore a).score ≥ 60 then "Fair"
       else if (calculateHealthScore a).score ≥ 40 then "Poor"
       else "Critical") := by
  rw [calculateHealthScore_score]
  rfl

/-- Exactly the disk rule or the Defender rule can put get_system_health
into the recommendation list; the length cap never drops both sources. -/
lemma buildNextSteps_mem_system_health (a : Alerts) (c : ℚ) (m : MemUsage) (d : DiskUsage) :
    "get_system_health" ∈ buildNextSteps a c m d ↔
      (jsLt d.percentFree 20 = true ∨
        a.critical.any (fun x => jsIncludes x "Defender") = true) := by
  unfold buildNextSteps
  by_cases h1 : c > 80 ∨ m.usagePercent > 85 <;>
  by_cases h2 : jsLt d.percentFree 20 = true <;>
  by_cases h3 : a.critical.any (fun x => jsIncludes x "Defender") = true <;>
  simp [h1, h2, h3]

/-! ## Claim theorems -/

/-- C1: every fresh report of the primary entrypoint has
score = max(0, 100 − 15·criticalCount − 5·warningCount), the status label
is banded at the 80/60/40 cutoffs, and the score depends only on the two
counts, not on message contents or order. -/
theorem healthScore_spec (now : ℕ) (r : Readings) :
    ((computeReport now r).systemHealthScore.score =
      max 0 (100 - ((computeReport now r).critical.length : ℚ) * 15
               - ((computeReport now r).warning.length : ℚ) * 5)) ∧
    ((computeReport now r).systemHealthScore.status =
      (if (computeReport now r).systemHealthScore.score ≥ 80 then "Good"
       else if (computeReport now r).systemHealthScore.score ≥ 60 then "Fair"
       else if (computeReport now r).systemHealthScore.score ≥ 40 then "Poor"
       else "Critical")) ∧
    (∀ a b : Alerts, a.critical.length = b.critical.length →
      a.warning.length = b.warning.length →
      calculateHealthScore a = calculateHealthScore b) := by
  refine ⟨?_, ?_, ?_⟩
  · exact calculateHealthScore_score
      ⟨now, (computeReport now r).critical, (computeReport now r).warning, []⟩
  · exact calculateHealthScore_status
      ⟨now, (computeReport now r).critical, (computeReport now r).warning, []⟩
  · intro a b hc hw
    simp only [calculateHealthScore, hc, hw]

/-- Witness for C1: the count-only dependence applied at concrete alert
lists of equal lengths but different contents and order. -/
theorem healthScore_spec_witness :
    calculateHealthScore ⟨0, ["x"], ["y"], []⟩ = calculateHealthScore ⟨7, ["u"], ["v"], ["w"]⟩ :=
  (healthScore_spec 0 ⟨50, ⟨16, 8, 8, 50⟩, Except.ok (some 50), SecurityOutcome.throws⟩).2.2
    ⟨0, ["x"], ["y"], []⟩ ⟨7, ["u"], ["v"], ["w"]⟩ (by decide) (by decide)

/-- C9: the alertCount fields of every fresh report equal the lengths of
the three severity lists, and total is their sum. -/
theorem alertCount_consistent (now : ℕ) (r : Readings) :
    (computeReport now r).alertCount.critical = (computeReport now r).critical.length ∧
    (computeReport now r).alertCount.warning = (computeReport now r).warning.length ∧
    (computeReport now r).alertCount.info = (computeReport now r).info.length ∧
    (computeReport now r).alertCount.total =
      (computeReport now r).critical.length + (computeReport now r).warning.length +
        (computeReport now r).info.length :=
  ⟨rfl, rfl, rfl, rfl⟩

/-- C10: the primary entrypoint never emits an info alert: the info list of
every fresh report is empty, alertCount.info is 0, and the health score is
a function of the critical and warning lists alone. -/
theorem info_always_empty (now : ℕ) (r : Readings) :
    (computeReport now r).info = [] ∧
    (computeReport now r).alertCount.info = 0 ∧
    (∀ a b : Alerts, a.critical = b.critical → a.warning = b.warning →
      calculateHealthScore a = calculateHealthScore b) := by
  refine ⟨rfl, rfl, ?_⟩
  intro a b hc hw
  simp only [calculateHealthScore, hc, hw]

/-- Witness for C10: score independence from info applied at concrete
alert objects differing only in timestamp and info list. -/
theorem info_always_empty_witness :
    calculateHealthScore ⟨0, ["c"], ["w"], []⟩ =
      calculateHealthScore ⟨5, ["c"], ["w"], ["extra info"]⟩ :=
  (info_always_empty 0 ⟨50, ⟨16, 8, 8, 50⟩, Except.ok (some 50), SecurityOutcome.throws⟩).2.2
    ⟨0, ["c"], ["w"], []⟩ ⟨5, ["c"], ["w"], ["extra info"]⟩ rfl rfl

/-- C4: with a cache entry younger than the 3-second TTL the primary
entrypoint returns the cached report unmodified (identical timestamp and
cache metadata, cache state untouched); once the TTL has elapsed it
computes, stores and returns a fresh report whose timestamp is strictly
newer than the cached one. -/
theorem getHealthAlerts_cache_contract (now : ℕ) (r : Readings) (cached : Report) (ts : ℕ)
    (hts : cached.timestamp = ts) :
    (now - ts < CACHE_TTL →
      getHealthAlerts now r (some (cached, ts)) = (cached, some (cached, ts))) ∧
    (¬ (now - ts < CACHE_TTL) →
      getHealthAlerts now r (some (cached, ts)) =
        (computeReport now r, some (computeReport now r, now)) ∧
      cached.timestamp < (computeReport now r).timestamp) := by
  constructor
  · intro h
    simp [getHealthAlerts, h]
  · intro h
    refine ⟨by simp [getHealthAlerts, h], ?_⟩
    show cached.timestamp < now
    simp only [CACHE_TTL] at h
    omega

/-- Witness for C4: both cache branches exercised at concrete clock values
around a concrete stored report. -/
theorem getHealthAlerts_cache_contract_witness :
    getHealthAlerts 1000 ⟨95, ⟨16, 8, 8, 50⟩, Except.ok (some 50), SecurityOutcome.throws⟩
        (some (computeReport 0 ⟨50, ⟨16, 8, 8, 50⟩, Except.ok (some 50), SecurityOutcome.throws⟩, 0)) =
      (computeReport 0 ⟨50, ⟨16, 8, 8, 50⟩, Except.ok (some 50), SecurityOutcome.throws⟩,
       some (computeReport 0 ⟨50, ⟨16, 8, 8, 50⟩, Except.ok (some 50), SecurityOutcome.throws⟩, 0)) :=
  (getHealthAlerts_cache_contract 1000
      ⟨95, ⟨16, 8, 8, 50⟩, Except.ok (some 50), SecurityOutcome.throws⟩
      (computeReport 0 ⟨50, ⟨16, 8, 8, 50⟩, Except.ok (some 50), SecurityOutcome.throws⟩)
      0 rfl).1 (by decide)

/-- C2 counterexample: with disk at 10% free and Defender disabled (CPU and
memory calm), the disk rule and the Defender rule each push
get_system_health and nothing deduplicates them: the recommendation list
is the same identifier twice, refuting the no-duplicates part of the
claim. -/
theorem nextSteps_duplicate_cex :
    (computeReport 0 ⟨50, ⟨16, 8, 8, 50⟩, Except.ok (some 10),
        SecurityOutcome.results (Except.ok "True") (Except.ok "4")⟩).nextStepsToCheck =
      ["get_system_health", "get_system_health"] ∧
    ¬ ((computeReport 0 ⟨50, ⟨16, 8, 8, 50⟩, Except.ok (some 10),
        SecurityOutcome.results (Except.ok "True") (Except.ok "4")⟩).nextStepsToCheck).Nodup := by
  decide

/-- C2 (amended): the recommendation list has length at most 2, draws only
from the two probe identifiers, keeps get_performance_stats (when present)
in front per the fixed rule order, but is NOT deduplicated: it contains a
duplicate exactly when the disk rule and the Defender rule both fire while
the performance rule does not. -/
theorem nextSteps_bounded_order (a : Alerts) (c : ℚ) (m : MemUsage) (d : DiskUsage) :
    (buildNextSteps a c m d).length ≤ 2 ∧
    (∀ x ∈ buildNextSteps a c m d, x = "get_performance_stats" ∨ x = "get_system_health") ∧
    ("get_performance_stats" ∈ buildNextSteps a c m d →
      (buildNextSteps a c m d).head? = some "get_performance_stats") ∧
    (¬ (buildNextSteps a c m d).Nodup ↔
      (¬ (c > 80 ∨ m.usagePercent > 85) ∧ jsLt d.percentFree 20 = true ∧
        a.critical.any (fun x => jsIncludes x "Defender") = true)) := by
  unfold buildNextSteps
  by_cases h1 : c > 80 ∨ m.usagePercent > 85 <;>
  by_cases h2 : jsLt d.percentFree 20 = true <;>
  by_cases h3 : a.critical.any (fun x => jsIncludes x "Defender") = true <;>
  simp [h1, h2, h3]

/-- Witness for C2 (amended): the membership bound applied to a concrete
run whose only recommendation is get_system_health. -/
theorem nextSteps_bounded_order_witness :
    "get_system_health" = "get_performance_stats" ∨
      "get_system_health" = "get_system_health" :=
  (nextSteps_bounded_order ⟨0, [], [], []⟩ 50 ⟨16, 8, 8, 50⟩
      ⟨some 10, true, false⟩).2.1 "get_system_health" (by decide)

/-- C3 counterexample: a report whose only critical alert is the firewall
message gets NO recommendation at all — the Defender rule matches only the
substring "Defender", so the firewall half of the security domain never
triggers the system/security probe, refuting the claim. -/
theorem firewall_no_probe_cex :
    (computeReport 0 ⟨50, ⟨16, 8, 8, 50⟩, Except.ok (some 50),
        SecurityOutcome.results (Except.ok "False") (Except.ok "0")⟩).critical =
      ["⚠️ Windows Firewall is disabled"] ∧
    (computeReport 0 ⟨50, ⟨16, 8, 8, 50⟩, Except.ok (some 50),
        SecurityOutcome.results (Except.ok "False") (Except.ok "0")⟩).nextStepsToCheck = [] := by
  decide

/-- C3 (amended): only critical messages containing "Defender" trigger the
security probe: whenever one does, get_system_health is recommended
(deduplication aside, the cap never drops it entirely); when none does and
the disk rule is off, get_system_health is never recommended — in
particular a firewall-only critical alert recommends nothing. -/
theorem defender_triggers_probe (a : Alerts) (c : ℚ) (m : MemUsage) (d : DiskUsage) :
    (a.critical.any (fun x => jsIncludes x "Defender") = true →
      "get_system_health" ∈ buildNextSteps a c m d) ∧
    (a.critical.any (fun x => jsIncludes x "Defender") = false →
      jsLt d.percentFree 20 = false →
      "get_system_health" ∉ buildNextSteps a c m d) := by
  constructor
  · intro h3
    exact (buildNextSteps_mem_system_health a c m d).2 (Or.inr h3)
  · intro h3 h2 hmem
    rcases (buildNextSteps_mem_system_health a c m d).1 hmem with h | h
    · exact absurd h (by simp [h2])
    · exact absurd h (by simp [h3])

/-- Witness for C3 (amended): a Defender-mentioning critical alert yields
the system health recommendation at a concrete input. -/
theorem defender_triggers_probe_witness :
    "get_system_health" ∈ buildNextSteps ⟨0, ["⚠️ Windows Defender is disabled"], [], []⟩
      50 ⟨16, 8, 8, 50⟩ ⟨some 50, false, false⟩ :=
  (defender_triggers_probe ⟨0, ["⚠️ Windows Defender is disabled"], [], []⟩
      50 ⟨16, 8, 8, 50⟩ ⟨some 50, false, false⟩).1 (by decide)

/-- C5 counterexample: readings exactly at the declared thresholds do not
classify as the claim says — CPU exactly 90 yields no critical alert (it
is a warning), CPU exactly 80 yields no alert at all, memory exactly 90 is
only a warning, and memory exactly 85 yields nothing, refuting the
inclusive-lower-bound claim at every one of its four instances. -/
theorem threshold_boundary_cex :
    (computeReport 0 ⟨90, ⟨16, 8, 8, 50⟩, Except.ok (some 50),
        SecurityOutcome.results (Except.ok "False") (Except.ok "3")⟩).critical = [] ∧
    (computeReport 0 ⟨80, ⟨16, 8, 8, 50⟩, Except.ok (some 50),
        SecurityOutcome.results (Except.ok "False") (Except.ok "3")⟩).critical = [] ∧
    (computeReport 0 ⟨80, ⟨16, 8, 8, 50⟩, Except.ok (some 50),
        SecurityOutcome.results (Except.ok "False") (Except.ok "3")⟩).warning = [] ∧
    (computeReport 0 ⟨50, ⟨16, 8, 8, 90⟩, Except.ok (some 50),
        SecurityOutcome.results (Except.ok "False") (Except.ok "3")⟩).critical = [] ∧
    (computeReport 0 ⟨50, ⟨16, 8, 8, 85⟩, Except.ok (some 50),
        SecurityOutcome.results (Except.ok "False") (Except.ok "3")⟩).critical = [] ∧
    (computeReport 0 ⟨50, ⟨16, 8, 8, 85⟩, Except.ok (some 50),
        SecurityOutcome.results (Except.ok "False") (Except.ok "3")⟩).warning = [] := by
  decide

/-- C5 (amended): the classifier thresholds are exclusive (strict >) in the
declared direction: readings strictly above 90 (CPU) and 90 (memory) are
critical and strictly above 80 / 85 are warnings, while readings exactly
at a threshold fall into the band below it — CPU 90 and memory 90 are
warnings, CPU 80 and memory 85 raise no alert. -/
theorem threshold_strictness :
    (computeReport 0 ⟨91, ⟨16, 8, 8, 50⟩, Except.ok (some 50),
        SecurityOutcome.results (Except.ok "False") (Except.ok "3")⟩).critical =
      ["⚠️ CPU critically high: 91%"] ∧
    (computeReport 0 ⟨50, ⟨16, 8, 8, 91⟩, Except.ok (some 50),
        SecurityOutcome.results (Except.ok "False") (Except.ok "3")⟩).critical =
      ["⚠️ Memory critically high: 91%"] ∧
    (computeReport 0 ⟨90, ⟨16, 8, 8, 50⟩, Except.ok (some 50),
        SecurityOutcome.results (Except.ok "False") (Except.ok "3")⟩).critical = [] ∧
    (computeReport 0 ⟨90, ⟨16, 8, 8, 50⟩, Except.ok (some 50),
        SecurityOutcome.results (Except.ok "False") (Except.ok "3")⟩).warning =
      ["CPU elevated: 90%"] ∧
    (computeReport 0 ⟨50, ⟨16, 8, 8, 90⟩, Except.ok (some 50),
        SecurityOutcome.results (Except.ok "False") (Except.ok "3")⟩).critical = [] ∧
    (computeReport 0 ⟨50, ⟨16, 8, 8, 90⟩, Except.ok (some 50),
        SecurityOutcome.results (Except.ok "False") (Except.ok "3")⟩).warning =
      ["Memory elevated: 90%"] ∧
    (computeReport 0 ⟨81, ⟨16, 8, 8, 50⟩, Except.ok (some 50),
        SecurityOutcome.results (Except.ok "False") (Except.ok "3")⟩).warning =
      ["CPU elevated: 81%"] ∧
    (computeReport 0 ⟨50, ⟨16, 8, 8, 86⟩, Except.ok (some 50),
        SecurityOutcome.results (Except.ok "False") (Except.ok "3")⟩).warning =
      ["Memory elevated: 86%"] ∧
    (computeReport 0 ⟨80, ⟨16, 8, 8, 85⟩, Except.ok (some 50),
        SecurityOutcome.results (Except.ok "False") (Except.ok "3")⟩).critical = [] ∧
    (computeReport 0 ⟨80, ⟨16, 8, 8, 85⟩, Except.ok (some 50),
        SecurityOutcome.results (Except.ok "False") (Except.ok "3")⟩).warning = [] := by
  decide

/-- C6 counterexample: the realistic security-collector failure — both
PowerShell sub-commands rejecting, mapped to empty stdout by the inner
catch handlers — is NOT a neutral default: the empty firewall output falls
back to "0", parses to a profile count of 0, and reports the firewall as
disabled, so an otherwise calm system gets a critical
"Windows Firewall is disabled" alert, refuting the claim that a failing
security collector reports Defender and firewall as not disabled. -/
theorem security_failure_alert_cex :
    getSecurityQuickCheck (SecurityOutcome.results (Except.error ()) (Except.error ())) =
      ⟨false, true⟩ ∧
    (computeReport 0 ⟨50, ⟨16, 8, 8, 50⟩, Except.ok (some 50),
        SecurityOutcome.results (Except.error ()) (Except.error ())⟩).critical =
      ["⚠️ Windows Firewall is disabled"] := by
  decide

/-- C6 (amended): collector failures never propagate and never abort the
report, and a failing disk collector is truly neutral — the "N/A" default
satisfies no threshold, so whatever the security outcome the report
carries no disk alert and the disk rule recommends nothing (any
get_system_health entry could only come from a Defender-mentioning
critical message).  A failing security collector, however, is only
half-neutral: the inner catch handlers map each sub-command rejection to
empty stdout, leaving Defender reported as not disabled but making the
firewall profile count parse as 0, so the report gains a critical firewall
alert; only the unreachable outer catch returns the fully neutral
both-not-disabled default, under which the report carries no security
alert at all. -/
theorem collector_failure_behavior (now : ℕ) (cpu : ℚ) (mem : MemUsage) :
    getDiskQuickCheck (Except.error ()) = ⟨none, false, false⟩ ∧
    (∀ sec : SecurityOutcome,
      (computeReport now ⟨cpu, mem, Except.error (), sec⟩).critical =
        ((if cpu > 90 then [s!"⚠️ CPU critically high: {cpu}%"] else []) ++
         (if mem.usagePercent > 90 then [s!"⚠️ Memory critically high: {mem.usagePercent}%"] else []) ++
         (if (getSecurityQuickCheck sec).defenderDisabled then
           ["⚠️ Windows Defender is disabled"] else []) ++
         (if (getSecurityQuickCheck sec).firewallDisabled then
           ["⚠️ Windows Firewall is disabled"] else [])) ∧
      (computeReport now ⟨cpu, mem, Except.error (), sec⟩).warning =
        ((if ¬ (cpu > 90) ∧ cpu > 80 then [s!"CPU elevated: {cpu}%"] else []) ++
         (if ¬ (mem.usagePercent > 90) ∧ mem.usagePercent > 85 then
           [s!"Memory elevated: {mem.usagePercent}%"] else []))) ∧
    ("get_system_health" ∈
        (computeReport now ⟨cpu, mem, Except.error (), SecurityOutcome.throws⟩).nextStepsToCheck →
      (computeReport now ⟨cpu, mem, Except.error (), SecurityOutcome.throws⟩).critical.any
        (fun x => jsIncludes x "Defender") = true) ∧
    getSecurityQuickCheck (SecurityOutcome.results (Except.error ()) (Except.error ())) =
      ⟨false, true⟩ ∧
    (∀ dx : Except Unit (Option ℚ),
      (computeReport now
          ⟨cpu, mem, dx, SecurityOutcome.results (Except.error ()) (Except.error ())⟩).critical =
        ((if cpu > 90 then [s!"⚠️ CPU critically high: {cpu}%"] else []) ++
         (if mem.usagePercent > 90 then [s!"⚠️ Memory critically high: {mem.usagePercent}%"] else []) ++
         (if jsLt (getDiskQuickCheck dx).percentFree 5 then
           [s!"⚠️ Disk space critical: {jsShow (getDiskQuickCheck dx).percentFree}% free"]
          else []) ++
         ["⚠️ Windows Firewall is disabled"])) ∧
    getSecurityQuickCheck SecurityOutcome.throws = ⟨false, false⟩ ∧
    (∀ dx : Except Unit (Option ℚ),
      (computeReport now ⟨cpu, mem, dx, SecurityOutcome.throws⟩).critical =
        ((if cpu > 90 then [s!"⚠️ CPU critically high: {cpu}%"] else []) ++
         (if mem.usagePercent > 90 then [s!"⚠️ Memory critically high: {mem.usagePercent}%"] else []) ++
         (if jsLt (getDiskQuickCheck dx).percentFree 5 then
           [s!"⚠️ Disk space critical: {jsShow (getDiskQuickCheck dx).percentFree}% free"]
          else []))) := by
  have hsec : getSecurityQuickCheck (SecurityOutcome.results (Except.error ()) (Except.error ())) =
      ⟨false, true⟩ := by decide
  refine ⟨rfl, ?_, ?_, hsec, ?_, rfl, ?_⟩
  · intro sec
    constructor
    · show (_ ++ _ ++ _ ++ _ ++ _ : List String) = _
      simp [getDiskQuickCheck, jsLt, List.append_assoc]
    · show (_ ++ _ ++ _ : List String) = _
      simp [getDiskQuickCheck, jsLt]
  · intro hmem
    rcases (buildNextSteps_mem_system_health
        ⟨now, (computeReport now ⟨cpu, mem, Except.error (), SecurityOutcome.throws⟩).critical,
          (computeReport now ⟨cpu, mem, Except.error (), SecurityOutcome.throws⟩).warning, []⟩
        cpu mem (getDiskQuickCheck (Except.error ()))).1 hmem with h | h
    · exact absurd h (by simp [getDiskQuickCheck, jsLt])
    · exact h
  · intro dx
    show (_ ++ _ ++ _ ++ _ ++ _ : List String) = _
    simp [hsec, List.append_assoc]
  · intro dx
    show (_ ++ _ ++ _ ++ _ ++ _ : List String) = _
    simp [getSecurityQuickCheck, List.append_assoc]

/-- Witness for C6 (amended): a hot reading with both collectors failing
via their realistic paths yields the CPU and memory alerts plus the
spurious firewall critical alert. -/
theorem collector_failure_behavior_witness :
    (computeReport 0 ⟨95, ⟨16, 15, 1, 95⟩, Except.error (),
        SecurityOutcome.results (Except.error ()) (Except.error ())⟩).critical =
      ["⚠️ CPU critically high: 95%", "⚠️ Memory critically high: 95%",
       "⚠️ Windows Firewall is disabled"] :=
  ((collector_failure_behavior 0 95 ⟨16, 15, 1, 95⟩).2.2.2.2.1 (Except.error ())).trans
    (by decide)

/-- The summary of a report with critical alerts: first two critical
messages, then the joined recommendation list with the
get_performance_stats fallback when that join is empty. -/
lemma generateSummary_critical (a : Alerts) (ns : List String) (h : a.critical ≠ []) :
    generateSummary a ns =
      (let criticalIssues := String.intercalate "; " (a.critical.take 2)
       let joined := String.intercalate ", " ns
       let run := if joined = "" then "get_performance_stats" else joined
       s!"🔴 CRITICAL: {criticalIssues}. Run: {run}") := by
  have hp : 0 < a.critical.length := List.length_pos.mpr h
  simp [generateSummary, hp]

/-- The summary of a report with warnings but no criticals: first two
warnings, then the joined recommendation list with the
"investigate further" fallback when that join is empty. -/
lemma generateSummary_warning (a : Alerts) (ns : List String)
    (h1 : a.critical = []) (h2 : a.warning ≠ []) :
    generateSummary a ns =
      (let warningIssues := String.intercalate "; " (a.warning.take 2)
       let joined := String.intercalate ", " ns
       let run := if joined = "" then "investigate further" else joined
       s!"🟡 WARNING: {warningIssues}. Run: {run}") := by
  have hw : 0 < a.warning.length := List.length_pos.mpr h2
  simp [generateSummary, h1, hw]

/-- The summary of an alert-free report states health with the score. -/
lemma generateSummary_healthy (a : Alerts) (ns : List String)
    (h1 : a.critical = []) (h2 : a.warning = []) (h3 : a.info = []) :
    generateSummary a ns =
      (let score := (calculateHealthScore a).score
       s!"✅ System healthy (score: {score}/100)") := by
  simp [generateSummary, h1, h2, h3]

/-- C8 counterexample: the report whose only critical alert is the firewall
message has an EMPTY recommendation set, yet its summary names
get_performance_stats — the summary is not composed of the recommended
probes alone, refuting the claim as universally stated. -/
theorem summary_fallback_cex :
    (computeReport 0 ⟨50, ⟨16, 8, 8, 50⟩, Except.ok (some 50),
        SecurityOutcome.results (Except.ok "False") (Except.ok "0")⟩).nextStepsToCheck = [] ∧
    (computeReport 0 ⟨50, ⟨16, 8, 8, 50⟩, Except.ok (some 50),
        SecurityOutcome.results (Except.ok "False") (Except.ok "0")⟩).actionableSummary =
      "🔴 CRITICAL: ⚠️ Windows Firewall is disabled. Run: get_performance_stats" := by
  decide

/-- C8 (amended): the fresh-report summary is composed casewise — criticals
first (first two messages, then the recommended probes or the literal
fallback get_performance_stats when none were recommended), else warnings
(first two, with the "investigate further" fallback), else the healthy
line with the numeric score. -/
theorem summary_composition (now : ℕ) (r : Readings) :
    ((computeReport now r).critical ≠ [] →
      (computeReport now r).actionableSummary =
        (let criticalIssues :=
          String.intercalate "; " ((computeReport now r).critical.take 2)
         let joined := String.intercalate ", " (computeReport now r).nextStepsToCheck
         let run := if joined = "" then "get_performance_stats" else joined
         s!"🔴 CRITICAL: {criticalIssues}. Run: {run}")) ∧
    ((computeReport now r).critical = [] → (computeReport now r).warning ≠ [] →
      (computeReport now r).actionableSummary =
        (let warningIssues :=
          String.intercalate "; " ((computeReport now r).warning.take 2)
         let joined := String.intercalate ", " (computeReport now r).nextStepsToCheck
         let run := if joined = "" then "investigate further" else joined
         s!"🟡 WARNING: {warningIssues}. Run: {run}")) ∧
    ((computeReport now r).critical = [] → (computeReport now r).warning = [] →
      (computeReport now r).actionableSummary =
        (let score := (computeReport now r).systemHealthScore.score
         s!"✅ System healthy (score: {score}/100)")) := by
  refine ⟨?_, ?_, ?_⟩
  · intro h
    exact generateSummary_critical
      ⟨now, (computeReport now r).critical, (computeReport now r).warning, []⟩
      (computeReport now r).nextStepsToCheck h
  · intro h1 h2
    exact generateSummary_warning
      ⟨now, (computeReport now r).critical, (computeReport now r).warning, []⟩
      (computeReport now r).nextStepsToCheck h1 h2
  · intro h1 h2
    exact generateSummary_healthy
      ⟨now, (computeReport now r).critical, (computeReport now r).warning, []⟩
      (computeReport now r).nextStepsToCheck h1 h2 rfl

/-- Witness for C8 (amended): the critical branch applied to a concrete run
whose only critical alert is the Defender message. -/
theorem summary_composition_witness :
    (computeReport 0 ⟨50, ⟨16, 8, 8, 50⟩, Except.ok (some 50),
        SecurityOutcome.results (Except.ok "True") (Except.ok "3")⟩).actionableSummary =
      "🔴 CRITICAL: ⚠️ Windows Defender is disabled. Run: get_system_health" :=
  ((summary_composition 0 ⟨50, ⟨16, 8, 8, 50⟩, Except.ok (some 50),
      SecurityOutcome.results (Except.ok "True") (Except.ok "3")⟩).1
    (by decide)).trans (by decide)

/-- C7 counterexample: two invocations of the network probe 1 second apart
(well inside the 30-second connectivity TTL, with identical collector
outcomes) do NOT return an identical cached report: the second report is
rebuilt with a newer timestamp, and its connectivity sub-object is the
cached one modified with an added fromCache flag — refuting the claim that
the network probe caches its whole Report under the §4.4 contract. -/
theorem network_cache_cex :
    (1000 : ℕ) - 0 < CONNECTIVITY_CACHE_TTL ∧
    ((getNetworkStatus 1000 [⟨"Ethernet", "192.168.1.2", "N/A", "aa:bb"⟩] (Except.ok "True")
        ⟨some 2, some 1, some 3⟩
        (getNetworkStatus 0 [⟨"Ethernet", "192.168.1.2", "N/A", "aa:bb"⟩] (Except.ok "True")
          ⟨some 2, some 1, some 3⟩ none).2).1 ≠
      (getNetworkStatus 0 [⟨"Ethernet", "192.168.1.2", "N/A", "aa:bb"⟩] (Except.ok "True")
        ⟨some 2, some 1, some 3⟩ none).1) ∧
    ((getNetworkStatus 1000 [⟨"Ethernet", "192.168.1.2", "N/A", "aa:bb"⟩] (Except.ok "True")
        ⟨some 2, some 1, some 3⟩
        (getNetworkStatus 0 [⟨"Ethernet", "192.168.1.2", "N/A", "aa:bb"⟩] (Except.ok "True")
          ⟨some 2, some 1, some 3⟩ none).2).1.internetConnectivity.fromCache = true) ∧
    ((getNetworkStatus 0 [⟨"Ethernet", "192.168.1.2", "N/A", "aa:bb"⟩] (Except.ok "True")
        ⟨some 2, some 1, some 3⟩ none).1.internetConnectivity.fromCache = false) := by
  decide

/-- C7 (amended): the thermal probe keeps its own whole-report cache with a
10-second TTL under the same return-cached-unmodified contract as the
primary entrypoint; the network probe keeps no report cache — every call
builds a report stamped with the current clock — and instead caches only
its internet-connectivity sub-result with a 30-second TTL, a cache hit
returning that sub-result with fromCache set to true while leaving the
stored entry unchanged. -/
theorem probe_cache_contracts (now : ℕ) :
    (∀ (tr : ThermalReadings) (trep : ThermalReport) (ts : ℕ),
      now - ts < THERMAL_CACHE_TTL →
        getThermalStatus now tr (some (trep, ts)) = (trep, some (trep, ts))) ∧
    THERMAL_CACHE_TTL = 10000 ∧
    CONNECTIVITY_CACHE_TTL = 30000 ∧
    (∀ (ifs : List NetInterface) (ce : Except Unit String) (dev : Devices)
        (st : Option (Connectivity × ℕ)),
      (getNetworkStatus now ifs ce dev st).1.timestamp = now) ∧
    (∀ (ce : Except Unit String) (c : Connectivity) (ts : ℕ),
      now - ts < CONNECTIVITY_CACHE_TTL →
        checkInternetConnectivity now ce (some (c, ts)) =
          ({ c with fromCache := true }, some (c, ts))) := by
  refine ⟨?_, rfl, rfl, ?_, ?_⟩
  · intro tr trep ts h
    simp [getThermalStatus, h]
  · intro ifs ce dev st
    rfl
  · intro ce c ts h
    simp [checkInternetConnectivity, h]

/-- Witness for C7 (amended): the thermal cache hit applied at concrete
clock values and a concrete stored report. -/
theorem probe_cache_contracts_witness :
    getThermalStatus 5000
        ⟨some 60, none, ThrottleVal.bool false, ⟨false, "Fan speed data not available through standard Windows APIs"⟩⟩
        (some (computeThermalReport 0
          ⟨some 60, none, ThrottleVal.bool false, ⟨false, "Fan speed data not available through standard Windows APIs"⟩⟩, 0)) =
      (computeThermalReport 0
        ⟨some 60, none, ThrottleVal.bool false, ⟨false, "Fan speed data not available through standard Windows APIs"⟩⟩,
       some (computeThermalReport 0
        ⟨some 60, none, ThrottleVal.bool false, ⟨false, "Fan speed data not available through standard Windows APIs"⟩⟩, 0)) :=
  (probe_cache_contracts 5000).1
    ⟨some 60, none, ThrottleVal.bool false, ⟨false, "Fan speed data not available through standard Windows APIs"⟩⟩
    (computeThermalReport 0
      ⟨some 60, none, ThrottleVal.bool false, ⟨false, "Fan speed data not available through standard Windows APIs"⟩⟩)
    0 (by decide)

end HealthCheck
